import Mathlib

/-!
Verification development for the OpenXT paravirtual input frontend
(openxt-kbdfront.c / oxt_kbdif.h).

The definitions below shallowly embed the frontend's data model and
operations: the wire event union, the shared-page event ring and its
drain loop (`input_handler`), the per-tag event handlers, the XenBus
negotiation state machine (`oxtkbd_backend_changed`), and the
connect/disconnect resource management (`oxtkbd_connect_backend`,
`oxtkbd_disconnect_backend`).  Sink side effects (evdev reports, MT slot
operations, ring notifications, XenBus calls) are recorded as explicit
action traces.  Machine 32-bit cursors are modelled as naturals reduced
modulo 2^32 where the C code relies on unsigned wraparound.
-/

/-- 2^32, the modulus of the ring's unsigned 32-bit cursors. -/
def U32 : Nat := 4294967296

/-- OXT_KBD_TYPE_MOTION from oxt_kbdif.h. -/
def OXT_KBD_TYPE_MOTION : Nat := 1

/-- OXT_KBD_TYPE_KEY from oxt_kbdif.h (tag 2 is unused). -/
def OXT_KBD_TYPE_KEY : Nat := 3

/-- OXT_KBD_TYPE_POS from oxt_kbdif.h. -/
def OXT_KBD_TYPE_POS : Nat := 4

/-- OXT_KBD_TYPE_TOUCH_DOWN from oxt_kbdif.h. -/
def OXT_KBD_TYPE_TOUCH_DOWN : Nat := 5

/-- OXT_KBD_TYPE_TOUCH_UP from oxt_kbdif.h. -/
def OXT_KBD_TYPE_TOUCH_UP : Nat := 6

/-- OXT_KBD_TYPE_TOUCH_MOVE from oxt_kbdif.h. -/
def OXT_KBD_TYPE_TOUCH_MOVE : Nat := 7

/-- OXT_KBD_TYPE_TOUCH_FRAME from oxt_kbdif.h. -/
def OXT_KBD_TYPE_TOUCH_FRAME : Nat := 8

/-- The seven event tags the dispatcher's switch recognizes. -/
def knownTags : List Nat := [1, 3, 4, 5, 6, 7, 8]

/-- OXT_KBD_IN_RING_SIZE: byte size of the inbound ring region. -/
def OXT_KBD_IN_RING_SIZE : Nat := 2048

/-- OXT_KBD_IN_EVENT_SIZE: byte size of one wire event record. -/
def OXT_KBD_IN_EVENT_SIZE : Nat := 40

/-- XENKBD_IN_RING_LEN: number of record slots in the ring
(the OXT_KBD_IN_RING_REF macro indexes modulo this; 2048 / 40 = 51). -/
def XENKBD_IN_RING_LEN : Nat := OXT_KBD_IN_RING_SIZE / OXT_KBD_IN_EVENT_SIZE

/-- Linux input axis code REL_X. -/
def REL_X : Nat := 0

/-- Linux input axis code REL_Y. -/
def REL_Y : Nat := 1

/-- Linux input axis code REL_WHEEL. -/
def REL_WHEEL : Nat := 8

/-- Linux input axis code ABS_X. -/
def ABS_X : Nat := 0

/-- Linux input axis code ABS_Y. -/
def ABS_Y : Nat := 1

/-- Linux input axis code ABS_MT_POSITION_X (0x35). -/
def ABS_MT_POSITION_X : Nat := 53

/-- Linux input axis code ABS_MT_POSITION_Y (0x36). -/
def ABS_MT_POSITION_Y : Nat := 54

/-- Linux multitouch tool code MT_TOOL_FINGER. -/
def MT_TOOL_FINGER : Nat := 0

/-- One record of `union oxtkbd_in_event`, flattened: each variant's
fields are carried side by side and the active variant is selected by
`type`, mirroring the tagged union of oxt_kbdif.h (the three touch
variants share their `id` field, as they do in the union layout). -/
structure OxtInEvent where
  type : Nat
  motion_rel_x : Int
  motion_rel_y : Int
  motion_rel_z : Int
  key_keycode : Nat
  key_pressed : Nat
  pos_abs_x : Int
  pos_abs_y : Int
  pos_rel_z : Int
  touch_id : Int
  touch_abs_x : Int
  touch_abs_y : Int
deriving DecidableEq

/-- The three input sink devices owned by `struct openxt_kbd_info`. -/
inductive Device where
  | kbd
  | ptr
  | absolute_pointer
deriving DecidableEq

/-- One observable side effect of the drain/dispatch path: an evdev
report to a sink, a multitouch slot operation, a diagnostic, or the
ring-space notification to the backend. -/
inductive SinkOp where
  | reportRel (d : Device) (axis : Nat) (value : Int)
  | reportAbs (d : Device) (axis : Nat) (value : Int)
  | reportKey (d : Device) (keycode : Nat) (value : Nat)
  | mtSlot (d : Device) (slot : Int)
  | mtReportSlotState (d : Device) (tool : Nat) (active : Bool)
  | mtSyncFrame (d : Device)
  | sync (d : Device)
  | warnUnhandled (keycode : Nat)
  | notify
deriving DecidableEq

/-- The keycode capability sets (`keybit`) declared by the keyboard and
relative-pointer sink devices, the only device state the key handler
consults. -/
structure KbdInfo where
  kbd_keybit : Nat → Bool
  ptr_keybit : Nat → Bool

/-- Embeds `__handle_relative_motion`: REL_X/REL_Y to the relative
pointer, a negated REL_WHEEL when rel_z is nonzero, then a sync. -/
def handle_relative_motion (e : OxtInEvent) : List SinkOp :=
  [SinkOp.reportRel Device.ptr REL_X e.motion_rel_x,
   SinkOp.reportRel Device.ptr REL_Y e.motion_rel_y]
  ++ (if e.motion_rel_z ≠ 0
      then [SinkOp.reportRel Device.ptr REL_WHEEL (-e.motion_rel_z)]
      else [])
  ++ [SinkOp.sync Device.ptr]

/-- Embeds `__handle_absolute_motion`: ABS_X/ABS_Y to the absolute
pointer, a negated REL_WHEEL when rel_z is nonzero, then a sync. -/
def handle_absolute_motion (e : OxtInEvent) : List SinkOp :=
  [SinkOp.reportAbs Device.absolute_pointer ABS_X e.pos_abs_x,
   SinkOp.reportAbs Device.absolute_pointer ABS_Y e.pos_abs_y]
  ++ (if e.pos_rel_z ≠ 0
      then [SinkOp.reportRel Device.absolute_pointer REL_WHEEL (-e.pos_rel_z)]
      else [])
  ++ [SinkOp.sync Device.absolute_pointer]

/-- Embeds `__handle_touch_down`: select the MT slot named by the wire
finger id and mark it active with tool MT_TOOL_FINGER. -/
def handle_touch_down (e : OxtInEvent) : List SinkOp :=
  [SinkOp.mtSlot Device.absolute_pointer e.touch_id,
   SinkOp.mtReportSlotState Device.absolute_pointer MT_TOOL_FINGER true]

/-- Embeds `__handle_touch_movement`: optionally re-select the slot named
by the wire finger id, report the ABS_MT position, and, only when
`send_abs_event` is set and the id is zero, also mirror the position to
the legacy ABS_X/ABS_Y axes. -/
def handle_touch_movement (e : OxtInEvent) (report_slot send_abs_event : Bool) :
    List SinkOp :=
  (if report_slot then [SinkOp.mtSlot Device.absolute_pointer e.touch_id] else [])
  ++ [SinkOp.reportAbs Device.absolute_pointer ABS_MT_POSITION_X e.touch_abs_x,
      SinkOp.reportAbs Device.absolute_pointer ABS_MT_POSITION_Y e.touch_abs_y]
  ++ (if send_abs_event && (e.touch_id == 0)
      then [SinkOp.reportAbs Device.absolute_pointer ABS_X e.touch_abs_x,
            SinkOp.reportAbs Device.absolute_pointer ABS_Y e.touch_abs_y]
      else [])

/-- Embeds `__handle_touch_up`: select the MT slot named by the wire
finger id and mark it inactive. -/
def handle_touch_up (e : OxtInEvent) : List SinkOp :=
  [SinkOp.mtSlot Device.absolute_pointer e.touch_id,
   SinkOp.mtReportSlotState Device.absolute_pointer MT_TOOL_FINGER false]

/-- Embeds `__handle_touch_framing`: MT frame sync then a general sync. -/
def handle_touch_framing (_e : OxtInEvent) : List SinkOp :=
  [SinkOp.mtSyncFrame Device.absolute_pointer,
   SinkOp.sync Device.absolute_pointer]

/-- Embeds `__handle_key_or_button_press`: the keyboard keybit test sets
the target device, the pointer keybit test overwrites it (so the pointer
sink wins when both declare the keycode); a found device receives one
key report and one sync, otherwise one diagnostic is logged. -/
def handle_key_or_button_press (info : KbdInfo) (e : OxtInEvent) : List SinkOp :=
  let dev0 : Option Device := none
  let dev1 : Option Device :=
    if info.kbd_keybit e.key_keycode then some Device.kbd else dev0
  let dev2 : Option Device :=
    if info.ptr_keybit e.key_keycode then some Device.ptr else dev1
  match dev2 with
  | some d => [SinkOp.reportKey d e.key_keycode e.key_pressed, SinkOp.sync d]
  | none => [SinkOp.warnUnhandled e.key_keycode]

/-- The dispatch switch of `input_handler`, one case per known tag in
source order; an unknown tag falls out of the switch and contributes
nothing. -/
def dispatchEvent (info : KbdInfo) (e : OxtInEvent) : List SinkOp :=
  if e.type = OXT_KBD_TYPE_MOTION then handle_relative_motion e
  else if e.type = OXT_KBD_TYPE_KEY then handle_key_or_button_press info e
  else if e.type = OXT_KBD_TYPE_POS then handle_absolute_motion e
  else if e.type = OXT_KBD_TYPE_TOUCH_DOWN then
    handle_touch_down e ++ handle_touch_movement e false false
  else if e.type = OXT_KBD_TYPE_TOUCH_UP then handle_touch_up e
  else if e.type = OXT_KBD_TYPE_TOUCH_MOVE then handle_touch_movement e true false
  else if e.type = OXT_KBD_TYPE_TOUCH_FRAME then handle_touch_framing e
  else []

/-- The shared page's inbound ring: the two 32-bit cursors and the slot
array (a total map from slot index to record; only indices below
XENKBD_IN_RING_LEN are ever read). -/
structure KbdPage where
  in_cons : Nat
  in_prod : Nat
  ring : Nat → OxtInEvent

/-- The OXT_KBD_IN_RING_REF macro: the record at slot `idx mod ring
length`. -/
def oxt_kbd_in_ring_ref (page : KbdPage) (idx : Nat) : OxtInEvent :=
  page.ring (idx % XENKBD_IN_RING_LEN)

/-- Number of loop iterations of the drain: the 32-bit distance from the
consumer cursor up to the producer cursor (unsigned wraparound). -/
def ringDist (cons prod : Nat) : Nat :=
  (prod % U32 + U32 - cons % U32) % U32

/-- The drain loop body of `input_handler`: starting at cursor `cons`,
dispatch the record at slot `cons mod ring length` and advance the
cursor modulo 2^32 until it reaches `prod`; `fuel` (instantiated with
the exact 32-bit cursor distance) makes the recursion structural. -/
def drainFrom (info : KbdInfo) (page : KbdPage) :
    Nat → Nat → Nat → List SinkOp
  | 0, _, _ => []
  | fuel + 1, cons, prod =>
    if cons % U32 = prod % U32 then []
    else
      dispatchEvent info (oxt_kbd_in_ring_ref page (cons % U32))
        ++ drainFrom info page fuel ((cons + 1) % U32) prod

/-- Embeds `input_handler`: read the producer cursor once; if it equals
the consumer cursor, do nothing; otherwise dispatch every outstanding
record in cursor order, publish the consumer cursor equal to the
captured producer cursor, and send one free-space notification. -/
def input_handler (info : KbdInfo) (page : KbdPage) : KbdPage × List SinkOp :=
  let prod := page.in_prod
  if prod = page.in_cons then (page, [])
  else
    let ops := drainFrom info page (ringDist page.in_cons prod) page.in_cons prod
    ({ page with in_cons := prod }, ops ++ [SinkOp.notify])

/-- XenBus negotiation states (enum xenbus_state). -/
inductive XenbusState where
  | Unknown
  | Initialising
  | InitWait
  | Initialised
  | Connected
  | Closing
  | Closed
  | Reconfiguring
  | Reconfigured
deriving DecidableEq

/-- Absolute-axis bounds currently set on an input device (the max
values installed by input_set_abs_params for ABS_X and ABS_Y; the min,
fuzz and flat arguments are always 0 in this driver). -/
structure AbsBounds where
  xMax : Int
  yMax : Int
deriving DecidableEq

/-- The state `oxtkbd_backend_changed` reads and writes: the frontend's
own XenBus state (dev->state) and the absolute-axis bounds of the
relative pointer (info->ptr) and of the absolute pointer
(info->absolute_pointer). -/
structure OxtDevModel where
  state : XenbusState
  ptrBounds : AbsBounds
  absPtrBounds : AbsBounds
deriving DecidableEq

/-- The XenStore keys the Connected path reads from the backend's
directory: `width` and `height`; `none` models a missing or unreadable
value (xenbus_scanf not returning a positive count). -/
structure XenStoreGeom where
  width : Option Int
  height : Option Int
deriving DecidableEq

/-- External calls the state machine makes, recorded as a trace. -/
inductive FsmAction where
  | switchState (s : XenbusState)
  | setAbsParams (d : Device) (axis : Nat) (maxValue : Int)
  | frontendClosed
deriving DecidableEq

/-- The `InitWait:` label of `oxtkbd_backend_changed`: switch the
frontend state to Connected and break. -/
def initWaitPath (dev : OxtDevModel) : OxtDevModel × List FsmAction :=
  ({ dev with state := XenbusState.Connected },
   [FsmAction.switchState XenbusState.Connected])

/-- Embeds `oxtkbd_backend_changed`: the switch over the backend's new
state.  Initialising/Initialised/Reconfiguring/Reconfigured/Unknown do
nothing; InitWait switches self to Connected; Connected jumps to the
InitWait path when self is not yet Connected (missed-InitWait race) and
otherwise installs the XenStore width/height as ABS_X/ABS_Y bounds on
info->ptr; Closing (or Closed when self is not yet Closed) closes the
frontend. -/
def oxtkbd_backend_changed (dev : OxtDevModel) (store : XenStoreGeom)
    (backend_state : XenbusState) : OxtDevModel × List FsmAction :=
  match backend_state with
  | XenbusState.Initialising => (dev, [])
  | XenbusState.Initialised => (dev, [])
  | XenbusState.Reconfiguring => (dev, [])
  | XenbusState.Reconfigured => (dev, [])
  | XenbusState.Unknown => (dev, [])
  | XenbusState.InitWait => initWaitPath dev
  | XenbusState.Connected =>
    if dev.state ≠ XenbusState.Connected then initWaitPath dev
    else
      let (dev1, acts1) :=
        match store.width with
        | some w =>
          ({ dev with ptrBounds := { dev.ptrBounds with xMax := w } },
           [FsmAction.setAbsParams Device.ptr ABS_X w])
        | none => (dev, [])
      let (dev2, acts2) :=
        match store.height with
        | some h =>
          ({ dev1 with ptrBounds := { dev1.ptrBounds with yMax := h } },
           [FsmAction.setAbsParams Device.ptr ABS_Y h])
        | none => (dev1, [])
      (dev2, acts1 ++ acts2)
  | XenbusState.Closed =>
    if dev.state = XenbusState.Closed then (dev, [])
    else ({ dev with state := XenbusState.Closed }, [FsmAction.frontendClosed])
  | XenbusState.Closing =>
    ({ dev with state := XenbusState.Closed }, [FsmAction.frontendClosed])

/-- The connection handles stored in `struct openxt_kbd_info`: the grant
reference and the bound IRQ, each -1 when unused. -/
structure InfoHandles where
  gref : Int
  irq : Int
deriving DecidableEq

/-- Resource operations performed by connect/disconnect, recorded as a
trace: the three acquisitions, their three releases, the abort of a
pending XenStore transaction, and the final state switch. -/
inductive ResOp where
  | grantAccess
  | allocEvtchn
  | bindIrq
  | txnAbort
  | unbindIrq
  | freeEvtchn
  | endGrantAccess
  | switchInitialised
deriving DecidableEq

/-- Linux EAGAIN errno value; xenbus_transaction_end reports a XenStore
conflict as -EAGAIN. -/
def EAGAIN : Int := 11

/-- Outcome of one pass through the `again:` transaction block of
`oxtkbd_connect_backend`: the return values of xenbus_transaction_start,
the three xenbus_printf writes (page-ref, page-gref, event-channel) and
xenbus_transaction_end, each 0 on success. -/
structure TxnAttempt where
  startRet : Int
  pageRefRet : Int
  pageGrefRet : Int
  evtchnWriteRet : Int
  endRet : Int
deriving DecidableEq

/-- Environment for one call of `oxtkbd_connect_backend`: the results
the external collaborators would return, with one TxnAttempt per pass
through the transaction block. -/
structure ConnectEnv where
  grantRet : Int
  evtchnAllocRet : Int
  bindRet : Int
  attempts : List TxnAttempt

/-- The acquisitions recorded before entering the transaction block:
grant the shared page, allocate the event channel, bind the IRQ. -/
def acq3 : List ResOp := [ResOp.grantAccess, ResOp.allocEvtchn, ResOp.bindIrq]

/-- The `error_irqh` exit path: unbind the IRQ (resetting info->irq to
-1), free the event channel, end the grant (resetting info->gref to
-1), and return the error. -/
def error_irqh (acc : List ResOp) (err : Int) :
    InfoHandles × List ResOp × Int :=
  ({ gref := -1, irq := -1 },
   acc ++ [ResOp.unbindIrq, ResOp.freeEvtchn, ResOp.endGrantAccess], err)

/-- The `error_xenbus` exit path: abort the open transaction, then fall
through to `error_irqh`. -/
def error_xenbus (acc : List ResOp) (err : Int) :
    InfoHandles × List ResOp × Int :=
  error_irqh (acc ++ [ResOp.txnAbort]) err

/-- The `again:` transaction loop of `oxtkbd_connect_backend`, recursing
over the modelled per-attempt outcomes: a failed start or a failed end
(other than -EAGAIN) exits through `error_irqh`, a failed write exits
through `error_xenbus`, -EAGAIN retries the whole block, and success
switches the frontend state to Initialised and returns 0.  `none` means
the modelled outcome list was exhausted while the loop was still
retrying. -/
def txn_loop (info : InfoHandles) (acc : List ResOp) :
    List TxnAttempt → Option (InfoHandles × List ResOp × Int)
  | [] => none
  | a :: rest =>
    if a.startRet ≠ 0 then some (error_irqh acc a.startRet)
    else if a.pageRefRet ≠ 0 then some (error_xenbus acc a.pageRefRet)
    else if a.pageGrefRet ≠ 0 then some (error_xenbus acc a.pageGrefRet)
    else if a.evtchnWriteRet ≠ 0 then some (error_xenbus acc a.evtchnWriteRet)
    else if a.endRet ≠ 0 then
      if a.endRet = -EAGAIN then txn_loop info acc rest
      else some (error_irqh acc a.endRet)
    else some (info, acc ++ [ResOp.switchInitialised], 0)

/-- Embeds `oxtkbd_connect_backend`: grant the shared page (storing the
gref), allocate the event channel, bind the IRQ handler (storing the
irq), then publish the parameters through the retried transaction; each
failure releases exactly the resources already acquired, in reverse
order, before returning the error. -/
def oxtkbd_connect_backend (env : ConnectEnv) (info : InfoHandles) :
    Option (InfoHandles × List ResOp × Int) :=
  if env.grantRet < 0 then some (info, [], env.grantRet)
  else
    let info1 : InfoHandles := { info with gref := env.grantRet }
    if env.evtchnAllocRet ≠ 0 then
      some ({ info1 with gref := -1 },
            [ResOp.grantAccess, ResOp.endGrantAccess], env.evtchnAllocRet)
    else if env.bindRet < 0 then
      some ({ info1 with gref := -1 },
            [ResOp.grantAccess, ResOp.allocEvtchn, ResOp.freeEvtchn,
             ResOp.endGrantAccess], env.bindRet)
    else
      txn_loop { info1 with irq := env.bindRet } acq3 env.attempts

/-- Embeds `oxtkbd_disconnect_backend`: unbind the IRQ when one is
bound, reset info->irq to -1, end the grant when one is live, reset
info->gref to -1. -/
def oxtkbd_disconnect_backend (info : InfoHandles) :
    InfoHandles × List ResOp :=
  let irqOps := if info.irq ≥ 0 then [ResOp.unbindIrq] else []
  let grefOps := if info.gref ≥ 0 then [ResOp.endGrantAccess] else []
  ({ gref := -1, irq := -1 }, irqOps ++ grefOps)

/-- True for the three acquisition operations of connect. -/
def isAcquire : ResOp → Bool
  | ResOp.grantAccess => true
  | ResOp.allocEvtchn => true
  | ResOp.bindIrq => true
  | _ => false

/-- True for the three release operations of connect/disconnect. -/
def isRelease : ResOp → Bool
  | ResOp.unbindIrq => true
  | ResOp.freeEvtchn => true
  | ResOp.endGrantAccess => true
  | _ => false

/-- The release operation matching each acquisition. -/
def releaseFor : ResOp → ResOp
  | ResOp.grantAccess => ResOp.endGrantAccess
  | ResOp.allocEvtchn => ResOp.freeEvtchn
  | ResOp.bindIrq => ResOp.unbindIrq
  | o => o

/-- A wire record with every field zero (tag 0 is unknown). -/
def zeroEvent : OxtInEvent :=
  { type := 0, motion_rel_x := 0, motion_rel_y := 0, motion_rel_z := 0,
    key_keycode := 0, key_pressed := 0,
    pos_abs_x := 0, pos_abs_y := 0, pos_rel_z := 0,
    touch_id := 0, touch_abs_x := 0, touch_abs_y := 0 }

/-- Builds a MOTION record. -/
def mkMotion (x y z : Int) : OxtInEvent :=
  { zeroEvent with
    motion_rel_x := x, motion_rel_y := y, motion_rel_z := z,
    type := OXT_KBD_TYPE_MOTION }

/-- Builds a KEY record. -/
def mkKey (keycode pressed : Nat) : OxtInEvent :=
  { zeroEvent with
    key_keycode := keycode, key_pressed := pressed,
    type := OXT_KBD_TYPE_KEY }

/-- Builds a POSITION record. -/
def mkPos (x y z : Int) : OxtInEvent :=
  { zeroEvent with
    pos_abs_x := x, pos_abs_y := y, pos_rel_z := z,
    type := OXT_KBD_TYPE_POS }

/-- Builds a TOUCH_DOWN record. -/
def mkTouchDown (id x y : Int) : OxtInEvent :=
  { zeroEvent with
    touch_id := id, touch_abs_x := x, touch_abs_y := y,
    type := OXT_KBD_TYPE_TOUCH_DOWN }

/-- Builds a TOUCH_UP record. -/
def mkTouchUp (id : Int) : OxtInEvent :=
  { zeroEvent with touch_id := id, type := OXT_KBD_TYPE_TOUCH_UP }

/-- Builds a TOUCH_MOVE record. -/
def mkTouchMove (id x y : Int) : OxtInEvent :=
  { zeroEvent with
    touch_id := id, touch_abs_x := x, touch_abs_y := y,
    type := OXT_KBD_TYPE_TOUCH_MOVE }

/-- Builds a record with an arbitrary (possibly unknown) tag. -/
def mkTagged (tag : Nat) : OxtInEvent := { zeroEvent with type := tag }

/-- A concrete device-info instance: the keyboard sink declares keycodes
30 and 999, the pointer sink declares keycodes 272 and 999. -/
def info0 : KbdInfo :=
  { kbd_keybit := fun k => k == 30 || k == 999,
    ptr_keybit := fun k => k == 272 || k == 999 }

/-- A concrete ring page: consumer cursor 0, producer cursor 2, every
slot holding a MOTION record. -/
def page0 : KbdPage :=
  { in_cons := 0, in_prod := 2, ring := fun _ => mkMotion 1 2 3 }

/-- A concrete ring page with a record of unknown tag 9 between two
valid records. -/
def page7 : KbdPage :=
  { in_cons := 0, in_prod := 3,
    ring := fun i =>
      if i = 0 then mkMotion 1 2 0
      else if i = 1 then mkTagged 9
      else mkKey 30 1 }

/-- A concrete ring page whose cursors are equal (nothing to drain). -/
def page8 : KbdPage :=
  { in_cons := 4, in_prod := 4, ring := fun _ => zeroEvent }

/-- Handle state with both handles unused. -/
def info_m1 : InfoHandles := { gref := -1, irq := -1 }

/-- A transaction attempt that ends in a XenStore conflict (-EAGAIN). -/
def againAttempt : TxnAttempt :=
  { startRet := 0, pageRefRet := 0, pageGrefRet := 0, evtchnWriteRet := 0,
    endRet := -EAGAIN }

/-- A transaction attempt whose start fails with -EIO (-5). -/
def startFailAttempt : TxnAttempt :=
  { startRet := -5, pageRefRet := 0, pageGrefRet := 0, evtchnWriteRet := 0,
    endRet := 0 }

/-- A concrete connect environment: grant and bind succeed, one
transaction conflict, then a fatal transaction-start failure. -/
def env0 : ConnectEnv :=
  { grantRet := 5, evtchnAllocRet := 0, bindRet := 7,
    attempts := [againAttempt, startFailAttempt] }

/-- The resource trace of the connect attempt of `env0`: all three
acquisitions, then all three releases in reverse order. -/
def opsC9 : List ResOp :=
  [ResOp.grantAccess, ResOp.allocEvtchn, ResOp.bindIrq,
   ResOp.unbindIrq, ResOp.freeEvtchn, ResOp.endGrantAccess]

/-- Concrete 1024x768 bounds. -/
def bounds0 : AbsBounds := { xMax := 1024, yMax := 768 }

/-- A concrete device model already in the Connected state. -/
def devConnected : OxtDevModel :=
  { state := XenbusState.Connected, ptrBounds := bounds0,
    absPtrBounds := bounds0 }

/-- A concrete device model still in the Initialised state. -/
def devInitialised : OxtDevModel :=
  { state := XenbusState.Initialised, ptrBounds := bounds0,
    absPtrBounds := bounds0 }

/-- A concrete store publishing width 800 and height 600. -/
def geom0 : XenStoreGeom := { width := some 800, height := some 600 }

/-- The 32-bit cursor distance is zero exactly when the cursors agree
modulo 2^32. -/
theorem ringDist_eq_zero_iff (c p : Nat) :
    ringDist c p = 0 ↔ c % U32 = p % U32 := by
  unfold ringDist U32
  omega

/-- Advancing the consumer cursor by one (mod 2^32) shrinks the cursor
distance by exactly one while the cursors differ. -/
theorem ringDist_succ (c p : Nat) (h : c % U32 ≠ p % U32) :
    ringDist ((c + 1) % U32) p + 1 = ringDist c p := by
  unfold ringDist U32 at *
  omega

/-- Splitting a flatMap over an initial range at its first element. -/
theorem range_flatMap_succ {α : Type} (f : Nat → List α) (d : Nat) :
    (List.range (d + 1)).flatMap f
      = f 0 ++ (List.range d).flatMap (fun i => f (i + 1)) := by
  rw [List.range_succ_eq_map]
  simp [List.flatMap_cons, List.flatMap_map, Nat.succ_eq_add_one]

/-- The drain loop, run with fuel equal to the cursor distance d,
dispatches exactly the d records at cursor positions cons, cons+1, ...
(mod 2^32) in order. -/
theorem drainFrom_eq (info : KbdInfo) (page : KbdPage) :
    ∀ (d cons prod : Nat), ringDist cons prod = d →
    drainFrom info page d cons prod =
      (List.range d).flatMap
        (fun i => dispatchEvent info (oxt_kbd_in_ring_ref page ((cons + i) % U32)))
  | 0, cons, prod, _ => by simp [drainFrom]
  | d + 1, cons, prod, h => by
    have hne : cons % U32 ≠ prod % U32 := by
      intro he
      rw [(ringDist_eq_zero_iff cons prod).mpr he] at h
      exact Nat.succ_ne_zero d h.symm
    have hd : ringDist ((cons + 1) % U32) prod = d := by
      have := ringDist_succ cons prod hne
      omega
    have ih := drainFrom_eq info page d ((cons + 1) % U32) prod hd
    rw [drainFrom, if_neg hne, ih, range_flatMap_succ]
    have hslot : (cons + 0) % U32 = cons % U32 := by rw [Nat.add_zero]
    rw [hslot]
    congr 1
    apply List.flatMap_congr
    intro i _
    have : ((cons + 1) % U32 + i) % U32 = (cons + (i + 1)) % U32 := by
      rw [Nat.mod_add_mod]
      congr 1
      omega
    rw [this]

/-- No per-event handler emits the free-space notification; it is sent
only once by the drain epilogue. -/
theorem notify_not_mem_dispatch (info : KbdInfo) (e : OxtInEvent) :
    SinkOp.notify ∉ dispatchEvent info e := by
  unfold dispatchEvent handle_relative_motion handle_key_or_button_press
    handle_absolute_motion handle_touch_down handle_touch_movement
    handle_touch_up handle_touch_framing
  repeat' split
  all_goals simp_all

/-- Characterization of `input_handler` on a non-empty ring: it
dispatches the outstanding records in cursor order at slot index
cursor mod ring length, publishes the captured producer cursor, and
appends one notification. -/
theorem input_handler_spec (info : KbdInfo) (page : KbdPage)
    (hne : page.in_prod ≠ page.in_cons) :
    input_handler info page =
      ({ page with in_cons := page.in_prod },
       ((List.range (ringDist page.in_cons page.in_prod)).flatMap
          (fun i => dispatchEvent info
            (page.ring (((page.in_cons + i) % U32) % XENKBD_IN_RING_LEN))))
        ++ [SinkOp.notify]) := by
  unfold input_handler
  rw [if_neg hne, drainFrom_eq info page _ _ _ rfl]
  rfl

/-- The free-space notification never occurs among the dispatched
per-record operations. -/
theorem notify_count_flatMap (info : KbdInfo) (f : Nat → OxtInEvent) (l : List Nat) :
    (l.flatMap (fun i => dispatchEvent info (f i))).count SinkOp.notify = 0 := by
  rw [List.count_eq_zero]
  intro hmem
  rw [List.mem_flatMap] at hmem
  obtain ⟨i, _, hop⟩ := hmem
  exact notify_not_mem_dispatch info (f i) hop

/-- C1: whenever the producer cursor is N ahead of the consumer cursor
(N > 0, 32-bit wraparound allowed), one invocation of the drain handler
dispatches exactly those N records in FIFO cursor order, each at slot
index cursor mod ring length, publishes the consumer cursor equal to the
producer cursor captured at loop start, and sends the free-space
notification exactly once. -/
theorem C1_drain_dispatches_all (info : KbdInfo) (page : KbdPage) (N : Nat)
    (hc : page.in_cons < U32) (hp : page.in_prod < U32)
    (hN : N = ringDist page.in_cons page.in_prod) (hpos : 0 < N) :
    input_handler info page =
      ({ page with in_cons := page.in_prod },
       ((List.range N).flatMap
          (fun i => dispatchEvent info
            (page.ring (((page.in_cons + i) % U32) % XENKBD_IN_RING_LEN))))
        ++ [SinkOp.notify])
    ∧ (input_handler info page).2.count SinkOp.notify = 1 := by
  have hne : page.in_prod ≠ page.in_cons := by
    intro he
    have h0 : page.in_cons % U32 = page.in_prod % U32 := by rw [he]
    have := (ringDist_eq_zero_iff page.in_cons page.in_prod).mpr h0
    omega
  subst hN
  refine ⟨input_handler_spec info page hne, ?_⟩
  rw [input_handler_spec info page hne]
  rw [List.count_append]
  rw [notify_count_flatMap info
    (fun i => page.ring (((page.in_cons + i) % U32) % XENKBD_IN_RING_LEN))]
  rfl

/-- C1 witness: a ring with two outstanding MOTION records satisfies the
hypotheses, and the drain sends exactly one notification. -/
theorem C1_witness :
    (0 < 2 ∧ (2 : Nat) = ringDist page0.in_cons page0.in_prod) ∧
    (input_handler info0 page0).2.count SinkOp.notify = 1 :=
  ⟨⟨by decide, by decide⟩,
   (C1_drain_dispatches_all info0 page0 2 (by decide) (by decide)
      (by decide) (by decide)).2⟩

/-- C8: invoking the drain handler with equal producer and consumer
cursors is a no-op: the page is unchanged (no cursor write), no handler
runs, and no operation — in particular no notification — is emitted. -/
theorem C8_drain_noop (info : KbdInfo) (page : KbdPage)
    (h : page.in_prod = page.in_cons) :
    input_handler info page = (page, []) := by
  unfold input_handler
  rw [if_pos h]

/-- C8 witness: a page with both cursors at 4 drains to nothing. -/
theorem C8_witness :
    page8.in_prod = page8.in_cons ∧ input_handler info0 page8 = (page8, []) :=
  ⟨rfl, C8_drain_noop info0 page8 rfl⟩

/-- A record whose tag is none of the seven known tags dispatches to no
sink operation at all. -/
theorem dispatch_unknown_eq_nil (info : KbdInfo) (e : OxtInEvent)
    (h : e.type ∉ knownTags) : dispatchEvent info e = [] := by
  simp only [knownTags, List.mem_cons, List.not_mem_nil, or_false, not_or] at h
  obtain ⟨h1, h3, h4, h5, h6, h7, h8⟩ := h
  simp [dispatchEvent, OXT_KBD_TYPE_MOTION, OXT_KBD_TYPE_KEY, OXT_KBD_TYPE_POS,
    OXT_KBD_TYPE_TOUCH_DOWN, OXT_KBD_TYPE_TOUCH_UP, OXT_KBD_TYPE_TOUCH_MOVE,
    OXT_KBD_TYPE_TOUCH_FRAME, h1, h3, h4, h5, h6, h7, h8]

/-- C7: a drained record with an unknown type tag produces no sink
operation, while every other record of the same drain is dispatched
exactly as it would be otherwise, and the consumer cursor still advances
past the unknown record to the producer cursor. -/
theorem C7_unknown_tag_skipped (info : KbdInfo) (page : KbdPage) (N j : Nat)
    (hc : page.in_cons < U32) (hp : page.in_prod < U32)
    (hN : N = ringDist page.in_cons page.in_prod) (hj : j < N)
    (hu : (page.ring (((page.in_cons + j) % U32) % XENKBD_IN_RING_LEN)).type
      ∉ knownTags) :
    (input_handler info page).1.in_cons = page.in_prod ∧
    (input_handler info page).2 =
      ((List.range N).flatMap
        (fun i => if i = j then []
          else dispatchEvent info
            (page.ring (((page.in_cons + i) % U32) % XENKBD_IN_RING_LEN))))
      ++ [SinkOp.notify] := by
  have hne : page.in_prod ≠ page.in_cons := by
    intro he
    have h0 : page.in_cons % U32 = page.in_prod % U32 := by rw [he]
    have := (ringDist_eq_zero_iff page.in_cons page.in_prod).mpr h0
    omega
  rw [input_handler_spec info page hne]
  subst hN
  refine ⟨rfl, ?_⟩
  simp only
  congr 1
  apply List.flatMap_congr
  intro i _
  by_cases hij : i = j
  · subst hij
    rw [if_pos rfl, dispatch_unknown_eq_nil info _ hu]
  · rw [if_neg hij]

/-- C7 witness: a ring holding a MOTION record, a record of unknown tag
9, and a KEY record drains with the cursor advanced to the producer
cursor. -/
theorem C7_witness :
    (1 < 3 ∧ (page7.ring (((page7.in_cons + 1) % U32) % XENKBD_IN_RING_LEN)).type
      ∉ knownTags) ∧
    (input_handler info0 page7).1.in_cons = page7.in_prod :=
  ⟨⟨by decide, by decide⟩,
   (C7_unknown_tag_skipped info0 page7 3 1 (by decide) (by decide) (by decide)
      (by decide) (by decide)).1⟩

/-- C2 counterexample: a TOUCH_DOWN for finger id 5 arriving while every
slot is free selects MT slot 5 — the wire id used directly — and not
slot 0, the lowest free slot the claim requires; no id-to-slot table
exists to consult. -/
theorem C2_counterexample :
    (dispatchEvent info0 (mkTouchDown 5 100 200)).head? =
      some (SinkOp.mtSlot Device.absolute_pointer 5) ∧
    SinkOp.mtSlot Device.absolute_pointer 0 ∉
      dispatchEvent info0 (mkTouchDown 5 100 200) := by
  decide

/-- C2 (amended): for every TOUCH_DOWN with finger id, the handler
selects the MT slot numerically equal to the id itself and marks it
active with tool finger (followed by the multitouch position report);
for every TOUCH_UP it selects the slot equal to the id and marks it
inactive.  No id-to-slot assignment table is kept. -/
theorem C2_slot_equals_id (info : KbdInfo) (id x y : Int) :
    dispatchEvent info (mkTouchDown id x y) =
      [SinkOp.mtSlot Device.absolute_pointer id,
       SinkOp.mtReportSlotState Device.absolute_pointer MT_TOOL_FINGER true,
       SinkOp.reportAbs Device.absolute_pointer ABS_MT_POSITION_X x,
       SinkOp.reportAbs Device.absolute_pointer ABS_MT_POSITION_Y y] ∧
    dispatchEvent info (mkTouchUp id) =
      [SinkOp.mtSlot Device.absolute_pointer id,
       SinkOp.mtReportSlotState Device.absolute_pointer MT_TOOL_FINGER false] :=
  ⟨rfl, rfl⟩

/-- C3 counterexample: a TOUCH_MOVE for the primary finger (id 0) emits
only the multitouch slot re-selection and ABS_MT position reports; no
legacy ABS_X/ABS_Y report reaches the absolute-pointer sink, because the
dispatcher invokes the movement helper with send_abs_event false. -/
theorem C3_counterexample :
    dispatchEvent info0 (mkTouchMove 0 7 9) =
      [SinkOp.mtSlot Device.absolute_pointer 0,
       SinkOp.reportAbs Device.absolute_pointer ABS_MT_POSITION_X 7,
       SinkOp.reportAbs Device.absolute_pointer ABS_MT_POSITION_Y 9] ∧
    SinkOp.reportAbs Device.absolute_pointer ABS_X 7 ∉
      dispatchEvent info0 (mkTouchMove 0 7 9) := by
  decide

/-- C3 (amended): for every TOUCH_MOVE — primary id included — the
handler emits exactly the multitouch update (slot re-selection and
ABS_MT position); the legacy single-touch mirroring branch of the
movement helper is disabled at the TOUCH_MOVE dispatch site. -/
theorem C3_move_emits_mt_only (info : KbdInfo) (id x y : Int) :
    dispatchEvent info (mkTouchMove id x y) =
      [SinkOp.mtSlot Device.absolute_pointer id,
       SinkOp.reportAbs Device.absolute_pointer ABS_MT_POSITION_X x,
       SinkOp.reportAbs Device.absolute_pointer ABS_MT_POSITION_Y y] :=
  rfl

/-- C4: a backend transition to Connected while the frontend is already
Connected, with width 800 and height 600 published, installs the new
ABS_X/ABS_Y bounds on the relative pointer device (info->ptr) and
leaves the absolute-pointer sink's bounds (info->absolute_pointer)
untouched — contradicting the claim, which names the absolute-pointer
sink as the device whose bounds are updated. -/
theorem C4_geom_update_hits_relative_pointer :
    oxtkbd_backend_changed devConnected geom0 XenbusState.Connected =
      ({ state := XenbusState.Connected,
         ptrBounds := { xMax := 800, yMax := 600 },
         absPtrBounds := bounds0 },
       [FsmAction.setAbsParams Device.ptr ABS_X 800,
        FsmAction.setAbsParams Device.ptr ABS_Y 600]) ∧
    (oxtkbd_backend_changed devConnected geom0 XenbusState.Connected).1.absPtrBounds
      = devConnected.absPtrBounds := by
  decide

/-- C5 counterexample: with the frontend already Connected, a backend
transition to Connected performs no InitWait-path state switch at all
(zero switchState actions, where the claim demands exactly one), and
when the InitWait path is taken (frontend still Initialised) the
invocation emits only the state switch — no width/height update follows
despite both values being published. -/
theorem C5_counterexample :
    (oxtkbd_backend_changed devConnected geom0 XenbusState.Connected).2.count
      (FsmAction.switchState XenbusState.Connected) = 0 ∧
    (oxtkbd_backend_changed devInitialised geom0 XenbusState.Connected).2 =
      [FsmAction.switchState XenbusState.Connected] := by
  decide

/-- C5 (amended): on a backend transition to Connected, when the
frontend's own state is not yet Connected (the missed-InitWait race),
the handler re-enters the InitWait path exactly once — switching the
frontend state to Connected — and performs no width/height update in
that invocation. -/
theorem C5_missed_initwait_reentry (dev : OxtDevModel) (store : XenStoreGeom)
    (h : dev.state ≠ XenbusState.Connected) :
    oxtkbd_backend_changed dev store XenbusState.Connected =
      ({ dev with state := XenbusState.Connected },
       [FsmAction.switchState XenbusState.Connected]) := by
  simp only [oxtkbd_backend_changed]
  rw [if_pos h]
  rfl

/-- C5 witness: a frontend still in Initialised sees backend Connected
and takes the InitWait path once, with no geometry action. -/
theorem C5_witness :
    devInitialised.state ≠ XenbusState.Connected ∧
    oxtkbd_backend_changed devInitialised geom0 XenbusState.Connected =
      ({ devInitialised with state := XenbusState.Connected },
       [FsmAction.switchState XenbusState.Connected]) :=
  ⟨by decide, C5_missed_initwait_reentry devInitialised geom0 (by decide)⟩

/-- C6: for a KEY event, a keycode declared only by the keyboard sink
yields exactly one key report plus sync to the keyboard sink; a keycode
declared by the pointer sink yields exactly one key report plus sync to
the pointer sink (the pointer sink winning when both declare it); a
keycode declared by neither yields zero sink events and exactly one
diagnostic. -/
theorem C6_keycode_routing (info : KbdInfo) (e : OxtInEvent)
    (ht : e.type = OXT_KBD_TYPE_KEY) :
    (info.kbd_keybit e.key_keycode = true → info.ptr_keybit e.key_keycode = false →
      dispatchEvent info e =
        [SinkOp.reportKey Device.kbd e.key_keycode e.key_pressed,
         SinkOp.sync Device.kbd]) ∧
    (info.ptr_keybit e.key_keycode = true →
      dispatchEvent info e =
        [SinkOp.reportKey Device.ptr e.key_keycode e.key_pressed,
         SinkOp.sync Device.ptr]) ∧
    (info.kbd_keybit e.key_keycode = false → info.ptr_keybit e.key_keycode = false →
      dispatchEvent info e = [SinkOp.warnUnhandled e.key_keycode]) := by
  have hd : dispatchEvent info e = handle_key_or_button_press info e := by
    simp [dispatchEvent, ht, OXT_KBD_TYPE_MOTION, OXT_KBD_TYPE_KEY]
  refine ⟨?_, ?_, ?_⟩
  · intro h1 h2
    rw [hd]
    simp [handle_key_or_button_press, h1, h2]
  · intro h1
    rw [hd]
    simp [handle_key_or_button_press, h1]
  · intro h1 h2
    rw [hd]
    simp [handle_key_or_button_press, h1, h2]

/-- C6 witness: keycode 272 is declared only by the pointer sink of
`info0`, and its KEY event routes to the pointer sink. -/
theorem C6_witness :
    (mkKey 272 1).type = OXT_KBD_TYPE_KEY ∧
    info0.ptr_keybit (mkKey 272 1).key_keycode = true ∧
    dispatchEvent info0 (mkKey 272 1) =
      [SinkOp.reportKey Device.ptr 272 1, SinkOp.sync Device.ptr] :=
  ⟨rfl, by decide, (C6_keycode_routing info0 (mkKey 272 1) rfl).2.1 (by decide)⟩


/-- Every failing exit of the transaction loop resets both handles to -1
and the trace's release operations are exactly the reverse of its
recorded acquisitions. -/
theorem txn_loop_fail (attempts : List TxnAttempt) :
    ∀ (info i2 : InfoHandles) (ops : List ResOp) (ret : Int),
    txn_loop info acq3 attempts = some (i2, ops, ret) → ret ≠ 0 →
    i2.irq = -1 ∧ i2.gref = -1 ∧
    ops.filter isRelease = (ops.filter isAcquire).reverse.map releaseFor := by
  induction attempts with
  | nil =>
    intro info i2 ops ret h _
    simp [txn_loop] at h
  | cons a rest ih =>
    intro info i2 ops ret h hne
    simp only [txn_loop] at h
    split_ifs at h with h1 h2 h3 h4 h5 h6
    · simp only [error_irqh, acq3, Option.some.injEq, Prod.mk.injEq] at h
      obtain ⟨hi, hops, hret⟩ := h
      subst hi
      subst hops
      exact ⟨rfl, rfl, by decide⟩
    · simp only [error_xenbus, error_irqh, acq3, Option.some.injEq,
        Prod.mk.injEq] at h
      obtain ⟨hi, hops, hret⟩ := h
      subst hi
      subst hops
      exact ⟨rfl, rfl, by decide⟩
    · simp only [error_xenbus, error_irqh, acq3, Option.some.injEq,
        Prod.mk.injEq] at h
      obtain ⟨hi, hops, hret⟩ := h
      subst hi
      subst hops
      exact ⟨rfl, rfl, by decide⟩
    · simp only [error_xenbus, error_irqh, acq3, Option.some.injEq,
        Prod.mk.injEq] at h
      obtain ⟨hi, hops, hret⟩ := h
      subst hi
      subst hops
      exact ⟨rfl, rfl, by decide⟩
    · exact ih info i2 ops ret h hne
    · simp only [error_irqh, acq3, Option.some.injEq, Prod.mk.injEq] at h
      obtain ⟨hi, hops, hret⟩ := h
      subst hi
      subst hops
      exact ⟨rfl, rfl, by decide⟩
    · simp only [Option.some.injEq, Prod.mk.injEq] at h
      obtain ⟨hi, hops, hret⟩ := h
      exact absurd hret.symm hne

/-- C9: when any step of the connect sequence fails (page grant, event
channel allocation, IRQ binding, or a non-EAGAIN transaction error),
`oxtkbd_connect_backend` returns the error with both stored handles
reset to -1, having released every resource acquired earlier in the
attempt in strict reverse-acquisition order; and a transaction attempt
ending in -EAGAIN is transparently retried, leaving the overall result
identical to a run without that conflicting attempt. -/
theorem C9_connect_failure_cleanup (env : ConnectEnv) (info : InfoHandles)
    (a : TxnAttempt) (rest : List TxnAttempt)
    (i2 : InfoHandles) (ops : List ResOp) (ret : Int)
    (hirq : info.irq = -1) (hgref : info.gref = -1)
    (hrun : oxtkbd_connect_backend env info = some (i2, ops, ret))
    (hfail : ret ≠ 0)
    (ha1 : a.startRet = 0) (ha2 : a.pageRefRet = 0) (ha3 : a.pageGrefRet = 0)
    (ha4 : a.evtchnWriteRet = 0) (ha5 : a.endRet = -EAGAIN) :
    (i2.irq = -1 ∧ i2.gref = -1 ∧
     ops.filter isRelease = (ops.filter isAcquire).reverse.map releaseFor) ∧
    oxtkbd_connect_backend { env with attempts := a :: rest } info =
      oxtkbd_connect_backend { env with attempts := rest } info := by
  constructor
  · simp only [oxtkbd_connect_backend] at hrun
    split_ifs at hrun with hg he hb
    · simp only [Option.some.injEq, Prod.mk.injEq] at hrun
      obtain ⟨hi, hops, hret⟩ := hrun
      subst hi
      subst hops
      exact ⟨hirq, hgref, by decide⟩
    · simp only [Option.some.injEq, Prod.mk.injEq] at hrun
      obtain ⟨hi, hops, hret⟩ := hrun
      subst hi
      subst hops
      exact ⟨hirq, rfl, by decide⟩
    · simp only [Option.some.injEq, Prod.mk.injEq] at hrun
      obtain ⟨hi, hops, hret⟩ := hrun
      subst hi
      subst hops
      exact ⟨hirq, rfl, by decide⟩
    · exact txn_loop_fail env.attempts _ i2 ops ret hrun hfail
  · simp only [oxtkbd_connect_backend]
    by_cases hg : env.grantRet < 0
    · simp [hg]
    · by_cases he : env.evtchnAllocRet ≠ 0
      · simp [hg, he]
      · by_cases hb : env.bindRet < 0
        · simp [hg, he, hb]
        · simp only [hg, he, hb, if_false, if_neg]
          simp [txn_loop, ha1, ha2, ha3, ha4, ha5, EAGAIN]

/-- C9 witness: with a successful grant (gref 5), event channel, and IRQ
binding (irq 7), one -EAGAIN conflict followed by a fatal transaction
start failure (-5) yields the error with both handles back at -1 and
the three releases in reverse order of the three acquisitions. -/
theorem C9_witness :
    (info_m1.irq = -1 ∧
     oxtkbd_connect_backend env0 info_m1 = some (info_m1, opsC9, -5) ∧
     againAttempt.endRet = -EAGAIN) ∧
    ((info_m1.irq = -1 ∧ info_m1.gref = -1 ∧
      opsC9.filter isRelease = (opsC9.filter isAcquire).reverse.map releaseFor) ∧
     oxtkbd_connect_backend { env0 with attempts := [againAttempt] } info_m1 =
       oxtkbd_connect_backend { env0 with attempts := ([] : List TxnAttempt) }
         info_m1) :=
  ⟨⟨rfl, by decide, rfl⟩,
   C9_connect_failure_cleanup env0 info_m1 againAttempt [] info_m1 opsC9 (-5)
     rfl rfl (by decide) (by decide) rfl rfl rfl rfl rfl⟩

/-- C10: after any call of `oxtkbd_disconnect_backend` both stored
handles are -1, and a second call on that state performs no unbind and
no grant release (it emits no resource operation at all) and leaves the
state unchanged. -/
theorem C10_disconnect_idempotent (info : InfoHandles) :
    (oxtkbd_disconnect_backend info).1.irq = -1 ∧
    (oxtkbd_disconnect_backend info).1.gref = -1 ∧
    oxtkbd_disconnect_backend (oxtkbd_disconnect_backend info).1 =
      ((oxtkbd_disconnect_backend info).1, []) :=
  ⟨rfl, rfl, rfl⟩
